import Mathlib

/-!
The request handler of rapidapi-gateway (`services/web.go`)

A shallow embedding of `Web.proxyRequestHandler`, `NewWeb` and `RegisterWebFlags`
together with the parts of the Go standard library the handler calls
(`http.Header.Get/Set`, `strings.ToLower`, `strings.HasPrefix`, `strconv.Itoa`,
`crypto/sha1`, `fmt.Sprintf("%x", ...)`, `time.Time.Add/Unix`).

Modelling conventions
* Go strings are Lean `String`s (header values are taken to be valid UTF-8).
* `http.Header` (a `map[string][]string`) is a partial function from keys to value lists.
* The iteration order of `range s.rates` is an explicit argument `order` of the handler:
  a list of the table's keys, in the order in which the loop visits them.
* `time.Now()` is an explicit argument `now`, an instant in nanoseconds since the Unix epoch.
* The JWT library (`jwt.NewWithClaims(...).SignedString`) and the Unicode case tables are
  collaborators, collected in `Lib`.
-/

namespace RapidapiGateway

/-! ## Go standard library -/

/-- Go `strings.HasPrefix(s, prefix)`. -/
def hasPrefix (s pre : String) : Bool := pre.data.isPrefixOf s.data

/-- Go `unicode.ToLower` on one rune: the ASCII range is computed, every other rune is
looked up in the Unicode case table `tbl`. -/
def toLowerRune (tbl : Char → Char) (c : Char) : Char :=
  if c.toNat < 128 then
    if 65 ≤ c.toNat ∧ c.toNat ≤ 90 then Char.ofNat (c.toNat + 32) else c
  else tbl c

/-- Go `strings.ToLower`. -/
def toLower (tbl : Char → Char) (s : String) : String := String.mk (s.data.map (toLowerRune tbl))

/-- Go `strconv.Itoa`: the decimal representation, with a leading minus sign for negatives. -/
def itoa (n : Int) : String :=
  if n < 0 then String.mk ('-' :: Nat.toDigits 10 n.natAbs) else String.mk (Nat.toDigits 10 n.natAbs)

/-- The bytes of one rune in UTF-8. -/
def utf8EncodeRune (c : Char) : List Nat :=
  let v := c.toNat
  if v < 0x80 then [v]
  else if v < 0x800 then [0xC0 + v / 64, 0x80 + v % 64]
  else if v < 0x10000 then [0xE0 + v / 4096, 0x80 + v / 64 % 64, 0x80 + v % 64]
  else [0xF0 + v / 262144, 0x80 + v / 4096 % 64, 0x80 + v / 64 % 64, 0x80 + v % 64]

/-- Go `[]byte(s)`. -/
def bytesOf (s : String) : List Nat := s.data.flatMap utf8EncodeRune

/-! ### `crypto/sha1` on 32-bit words held in `Nat` -/

namespace sha1

/-- Go `bits.RotateLeft32(x, n)`. -/
def rotl32 (n x : Nat) : Nat := ((x <<< n) ||| (x >>> (32 - n))) % 2 ^ 32

/-- Bitwise complement of a 32-bit word. -/
def not32 (x : Nat) : Nat := 2 ^ 32 - 1 - x

/-- Big-endian 32-bit word of four bytes. -/
def be32 (a b c d : Nat) : Nat := ((a * 256 + b) * 256 + c) * 256 + d

/-- The sixteen message words of a 64-byte block. -/
def words : List Nat → List Nat
  | a :: b :: c :: d :: rest => be32 a b c d :: words rest
  | _ => []

/-- Message padding: a `0x80` byte, zeros up to 56 mod 64, the bit length on 8 bytes. -/
def pad (msg : List Nat) : List Nat :=
  msg ++ 0x80 :: List.replicate ((119 - msg.length % 64) % 64) 0 ++
    (List.range 8).map (fun i => ((8 * msg.length) >>> (8 * (7 - i))) % 256)

/-- Extends the message schedule by `n` words; the schedule is kept most recent word first. -/
def extend : Nat → List Nat → List Nat
  | 0, w => w
  | n + 1, w =>
    extend n (rotl32 1 (w.getD 2 0 ^^^ w.getD 7 0 ^^^ w.getD 13 0 ^^^ w.getD 15 0) :: w)

/-- The eighty schedule words of a block, in order. -/
def schedule (blk : List Nat) : List Nat := (extend 64 (words blk).reverse).reverse

/-- The five chaining words. -/
structure Digest where
  a : Nat
  b : Nat
  c : Nat
  d : Nat
  e : Nat
deriving DecidableEq, Repr

/-- One of the eighty rounds, on round index `tw.1` and schedule word `tw.2`. -/
def round (s : Digest) (tw : Nat × Nat) : Digest :=
  let t := tw.1
  let f := if t < 20 then (s.b &&& s.c) ||| (not32 s.b &&& s.d)
    else if t < 40 then s.b ^^^ s.c ^^^ s.d
    else if t < 60 then ((s.b ||| s.c) &&& s.d) ||| (s.b &&& s.c)
    else s.b ^^^ s.c ^^^ s.d
  let k := if t < 20 then 0x5A827999 else if t < 40 then 0x6ED9EBA1
    else if t < 60 then 0x8F1BBCDC else 0xCA62C1D6
  ⟨(rotl32 5 s.a + f + s.e + tw.2 + k) % 2 ^ 32, s.a, rotl32 30 s.b, s.c, s.d⟩

/-- Compression of one 64-byte block. -/
def block (h : Digest) (blk : List Nat) : Digest :=
  let r := (schedule blk).enum.foldl round h
  ⟨(h.a + r.a) % 2 ^ 32, (h.b + r.b) % 2 ^ 32, (h.c + r.c) % 2 ^ 32,
   (h.d + r.d) % 2 ^ 32, (h.e + r.e) % 2 ^ 32⟩

/-- Compression of the first `n` blocks of `p`. -/
def blocks : Nat → Digest → List Nat → Digest
  | 0, h, _ => h
  | n + 1, h, p => blocks n (block h (p.take 64)) (p.drop 64)

/-- The four bytes of a 32-bit word, big-endian. -/
def bytes32 (x : Nat) : List Nat :=
  [x / 2 ^ 24 % 256, x / 2 ^ 16 % 256, x / 2 ^ 8 % 256, x % 256]

/-- Go `sha1.Sum`: the 20-byte digest of a message. -/
def Sum (msg : List Nat) : List Nat :=
  let p := pad msg
  let h := blocks (p.length / 64) ⟨0x67452301, 0xEFCDAB89, 0x98BADCFE, 0x10325476, 0xC3D2E1F0⟩ p
  bytes32 h.a ++ bytes32 h.b ++ bytes32 h.c ++ bytes32 h.d ++ bytes32 h.e

end sha1

/-- Go `fmt.Sprintf("%x", b)` on a byte array: two lowercase hexadecimal digits per byte. -/
def sprintfHex (bs : List Nat) : String :=
  String.mk (bs.flatMap fun b => [Nat.digitChar (b / 16), Nat.digitChar (b % 16)])

/-- A Go `time.Time` instant, as nanoseconds since the Unix epoch. -/
abbrev Time := Int

/-- A Go `time.Duration`, in nanoseconds. -/
abbrev Duration := Int

/-- Go `time.Hour`. -/
def Hour : Duration := 3600 * 1000000000

/-- Go `Time.Add`. -/
def Time.Add (t : Time) (d : Duration) : Time := t + d

/-- Go `Time.Unix`: the whole seconds since the epoch, rounded down. -/
def Time.Unix (t : Time) : Int := t / 1000000000

/-! ### `net/http` headers and requests -/

/-- The bytes allowed in a header field name (RFC 7230 token characters). -/
def validHeaderFieldByte (c : Char) : Bool :=
  c.isAlphanum || [33, 35, 36, 37, 38, 39, 42, 43, 45, 46, 94, 95, 96, 124, 126].contains c.toNat

/-- The case normalisation loop of `textproto.canonicalMIMEHeaderKey`. -/
def canonicalLoop : Bool → List Char → List Char
  | _, [] => []
  | upper, c :: cs =>
    let c1 :=
      if upper ∧ 97 ≤ c.toNat ∧ c.toNat ≤ 122 then Char.ofNat (c.toNat - 32)
      else if ¬ upper ∧ 65 ≤ c.toNat ∧ c.toNat ≤ 90 then Char.ofNat (c.toNat + 32)
      else c
    c1 :: canonicalLoop (c1 == '-') cs

/-- Go `textproto.CanonicalMIMEHeaderKey`: a key holding a byte that is not a token
character is returned unchanged. -/
def canonicalMIMEHeaderKey (s : String) : String :=
  if s.data.all validHeaderFieldByte then String.mk (canonicalLoop true s.data) else s

/-- Go `http.Header`, a `map[string][]string`. -/
abbrev Header := String → Option (List String)

/-- Go `Header.Get`: the first value stored under the canonical key, or `""`. -/
def Header.Get (h : Header) (key : String) : String :=
  match h (canonicalMIMEHeaderKey key) with
  | some (v :: _) => v
  | _ => ""

/-- Go `Header.Set`: the canonical key is bound to the single value. -/
def Header.Set (h : Header) (key value : String) : Header :=
  fun k => if k = canonicalMIMEHeaderKey key then some [value] else h k

/-- The parts of a Go `http.Request` that the gateway reads or relays. -/
structure Request where
  Method : String
  Path : String
  RawQuery : String
  Body : String
  Header : Header

/-! ### `urfave/cli` flags -/

/-- A command-line flag declaration: `cli.StringFlag` or `cli.IntFlag`. -/
inductive Flag where
  | StringFlag (Name Usage Value EnvVar : String)
  | IntFlag (Name Usage : String) (Value : Int) (EnvVar : String)

/-- The name of a flag. -/
def Flag.name : Flag → String
  | .StringFlag n _ _ _ => n
  | .IntFlag n _ _ _ => n

/-- A `cli.Context`: the flags registered on the command and the values supplied on the
command line or through the environment. -/
structure Context where
  flags : List Flag
  suppliedString : String → Option String
  suppliedInt : String → Option Int

/-- Go `c.Int(name)`: the supplied value of a registered integer flag, or its default. -/
def Context.Int (c : Context) (name : String) : Int :=
  match c.flags.find? (fun f => f.name == name) with
  | some (.IntFlag _ _ v _) => (c.suppliedInt name).getD v
  | _ => 0

/-- Go `c.String(name)`: the supplied value of a registered string flag, or its default. -/
def Context.String (c : Context) (name : String) : String :=
  match c.flags.find? (fun f => f.name == name) with
  | some (.StringFlag _ _ v _) => (c.suppliedString name).getD v
  | _ => ""

/-! ## `services/web.go` -/

/-- Go `jwt.StandardClaims`. -/
structure JwtStandardClaims where
  Audience : String
  ExpiresAt : Int
  Id : String
  IssuedAt : Int
  Issuer : String
  NotBefore : Int
  Subject : String
deriving DecidableEq, Repr

set_option linter.dupNamespace false in
/-- The claim set signed into the token. -/
structure StandardClaims where
  Rate : String
  Connections : Int
  Role : String
  SessionID : String
  Domain : String
  StandardClaims : JwtStandardClaims
deriving DecidableEq, Repr

def webHostFlag : String := "host"
def webPortFlag : String := "port"
def restAPIHostFlag : String := "rest-api-host"
def restAPIPortFlag : String := "rest-api-port"
def basicRateFlag : String := "basic-rate"
def proRateFlag : String := "pro-rate"
def ultraRateFlag : String := "ultra-rate"
def megaRateFlag : String := "mega-rate"
def basicConFlag : String := "basic-connections"
def proConFlag : String := "pro-connections"
def ultraConFlag : String := "ultra-connections"
def megaConFlag : String := "mega-connections"
def rapidAPIProxySecretFlag : String := "rapid-api-proxy-secret"
def webtorAPIKeyFlag : String := "webtor-api-key"
def webtorAPISecretFlag : String := "webtor-api-secret"

abbrev SubscriptionType := String

def SubscriptionTypeBasic : SubscriptionType := "basic"
def SubscriptionTypePro : SubscriptionType := "pro"
def SubscriptionTypeUltra : SubscriptionType := "ultra"
def SubscriptionTypeMega : SubscriptionType := "mega"

structure Features where
  Rate : String
  Connections : Int
deriving DecidableEq, Repr

/-- The gateway; `rates` lists the entries of the Go map, one per key. -/
structure Web where
  host : String
  port : Int
  raHost : String
  raPort : Int
  rates : List (SubscriptionType × Features)
  rapidSecret : String
  wKey : String
  wSecret : String

def NewWeb (c : Context) : Web where
  host := c.String webHostFlag
  port := c.Int webPortFlag
  raHost := c.String restAPIHostFlag
  raPort := c.Int restAPIPortFlag
  rapidSecret := c.String rapidAPIProxySecretFlag
  rates := [
    (SubscriptionTypeBasic, ⟨c.String basicRateFlag, c.Int basicConFlag⟩),
    (SubscriptionTypePro, ⟨c.String proRateFlag, c.Int proConFlag⟩),
    (SubscriptionTypeUltra, ⟨c.String ultraRateFlag, c.Int ultraConFlag⟩),
    (SubscriptionTypeMega, ⟨c.String megaRateFlag, c.Int megaConFlag⟩)]
  wKey := c.String webtorAPIKeyFlag
  wSecret := c.String webtorAPISecretFlag

def RegisterWebFlags (f : List Flag) : List Flag :=
  f ++ [
    .StringFlag webHostFlag "listening host" "" "WEB_HOST",
    .IntFlag webPortFlag "http listening port" 8080 "WEB_PORT",
    .StringFlag restAPIHostFlag "rest-api host" "" "REST_API_SERVICE_HOST",
    .IntFlag restAPIPortFlag "rest-api port" 80 "REST_API_SERVICE_PORT",
    .StringFlag basicRateFlag "basic rate" "20M" "BASIC_RATE",
    .StringFlag proRateFlag "pro rate" "100M" "PRO_RATE",
    .StringFlag ultraRateFlag "ultra rate" "250M" "ULTRA_RATE",
    .StringFlag megaRateFlag "mega rate" "1000M" "MEGA_RATE",
    .IntFlag basicConFlag "basic connections" 2 "BASIC_CONNECTIONS",
    .IntFlag proConFlag "pro connections" 10 "PRO_CONNECTIONS",
    .IntFlag ultraConFlag "ultra connections" 25 "ULTRA_CONNECTIONS",
    .IntFlag megaConFlag "mega connections" 100 "MEGA_CONNECTIONS",
    .StringFlag rapidAPIProxySecretFlag "rapid api proxy secret" "" "RAPID_API_PROXY_SECRET",
    .StringFlag webtorAPIKeyFlag "webtor api key" "" "WEBTOR_API_KEY",
    .StringFlag webtorAPISecretFlag "webtor api secret" "" "WEBTOR_API_SECRET"]

/-- The collaborators of the handler that are not part of the repository. -/
structure Lib where
  /-- The Unicode lower-case table used by `strings.ToLower` beyond ASCII. -/
  unicodeLower : Char → Char
  /-- The call `jwt.NewWithClaims(jwt.SigningMethodHS256, claims).SignedString(key)`:
  the compact token, or an error. -/
  signedString : StandardClaims → String → Except String String

/-- Go `s.rates[subType]`: the entry of the key, or the zero `Features` value. -/
def Web.ratesAt (s : Web) (subType : SubscriptionType) : Features :=
  (s.rates.lookup subType).getD ⟨"", 0⟩

/-- Lines 209-216: the tier chosen by the loop `for k := range s.rates`, which visits the
keys in the order `order` and stops at the first key that prefixes the lowered header. -/
def subTypeOf (L : Lib) (order : List SubscriptionType) (r : Request) : SubscriptionType :=
  let rapSub := toLower L.unicodeLower (r.Header.Get "X-RapidAPI-Subscription")
  (order.find? (fun k => hasPrefix rapSub k)).getD SubscriptionTypeBasic

/-- Line 219: the string that is hashed into the session identifier. -/
def sessionInput (user rate : String) (connections : Int) : String :=
  user ++ rate ++ itoa connections

/-- Line 219: the session identifier. -/
def sessionID (user rate : String) (connections : Int) : String :=
  sprintfHex (sha1.Sum (bytesOf (sessionInput user rate connections)))

/-- Lines 217-227: the claims built for a request that passed the secret check. -/
def claimsOf (L : Lib) (s : Web) (order : List SubscriptionType) (now : Time) (r : Request) :
    StandardClaims :=
  let subType := subTypeOf L order r
  let features := s.ratesAt subType
  { SessionID := sessionID (r.Header.Get "X-RapidAPI-User") features.Rate features.Connections
    Role := subType
    Rate := features.Rate
    Connections := features.Connections
    Domain := "rapidapi.com"
    StandardClaims :=
      { Audience := "", ExpiresAt := (now.Add (24 * 7 * Hour)).Unix, Id := "", IssuedAt := 0,
        Issuer := "", NotBefore := 0, Subject := "" } }

/-- What one run of the handler did. -/
structure Result where
  /-- The status passed to `w.WriteHeader` by the handler itself, if it called it. -/
  status : Option Nat
  /-- The claims the handler constructed, if it got that far. -/
  claims : Option StandardClaims
  /-- The request passed to `proxy.ServeHTTP`, if the handler called it. -/
  proxied : Option Request
  /-- The request `*r` when the handler returns. -/
  request : Request

/-- The handler returned by `Web.proxyRequestHandler`, run on request `r` at instant `now`,
with the tier table iterated in the order `order`. -/
def proxyRequestHandler (L : Lib) (s : Web) (order : List SubscriptionType) (now : Time)
    (r : Request) : Result :=
  if r.Header.Get "X-RapidAPI-Proxy-Secret" ≠ s.rapidSecret then
    { status := some 403, claims := none, proxied := none, request := r }
  else
    let claims := claimsOf L s order now r
    match L.signedString claims s.wSecret with
    | .error _ => { status := some 500, claims := some claims, proxied := none, request := r }
    | .ok tokenString =>
      let r1 := { r with Header := r.Header.Set "X-Token" tokenString }
      let r2 := { r1 with Header := r1.Header.Set "X-Api-Key" s.wKey }
      { status := none, claims := some claims, proxied := some r2, request := r2 }

/-- The iteration orders of `range s.rates`: the orderings of the table's keys. -/
def Web.IsOrder (s : Web) (order : List SubscriptionType) : Prop :=
  order.Perm (s.rates.map Prod.fst)

instance (s : Web) (order : List SubscriptionType) : Decidable (s.IsOrder order) := by
  unfold Web.IsOrder; infer_instance

/-! ## Concrete configurations and requests -/

/-- The configuration in which no flag is supplied: every flag has its default. -/
def defaultContext : Context where
  flags := RegisterWebFlags []
  suppliedString := fun _ => none
  suppliedInt := fun _ => none

/-- The default configuration with the three secrets supplied. -/
def sampleContext : Context where
  flags := RegisterWebFlags []
  suppliedString := fun n =>
    if n = rapidAPIProxySecretFlag then some "s3cr3t"
    else if n = webtorAPIKeyFlag then some "key-1"
    else if n = webtorAPISecretFlag then some "sign-1" else none
  suppliedInt := fun _ => none

/-- A signer that always succeeds (a stand-in for HS256 in the examples). -/
def sampleLib : Lib where
  unicodeLower := id
  signedString := fun cl key => .ok (cl.Role ++ "." ++ cl.SessionID ++ "." ++ key)

/-- A signer that always fails. -/
def failingLib : Lib where
  unicodeLower := id
  signedString := fun _ _ => .error "key is invalid"

/-- A request without any header. -/
def bareRequest : Request where
  Method := "GET"
  Path := "/resource"
  RawQuery := "a=1"
  Body := ""
  Header := fun _ => none

/-- The request of the end-to-end scenario, with caller-supplied `X-Token` and `X-Api-Key`. -/
def sampleRequest : Request where
  Method := "POST"
  Path := "/resource/1"
  RawQuery := "q=x"
  Body := "payload"
  Header := fun k =>
    if k = "X-Rapidapi-Proxy-Secret" then some ["s3cr3t"]
    else if k = "X-Rapidapi-Subscription" then some ["ULTRA_Monthly"]
    else if k = "X-Rapidapi-User" then some ["userA"]
    else if k = "X-Token" then some ["forged", "forged-2"]
    else if k = "X-Api-Key" then some ["guess"]
    else if k = "Accept" then some ["*/*"]
    else none

/-- A request that carries the secret and a caller-supplied subscription text `sub`, or no
subscription header at all. -/
def tierRequest (sub : Option String) : Request where
  Method := "GET"
  Path := "/resource"
  RawQuery := ""
  Body := ""
  Header := fun k =>
    if k = "X-Rapidapi-Proxy-Secret" then some ["s3cr3t"]
    else if k = "X-Rapidapi-Subscription" then sub.map fun v => [v]
    else none

/-- The claims expected for `sampleRequest` under `sampleContext` at the instant
1700000000.123456789 s. -/
def sampleClaims : StandardClaims where
  SessionID := "79aeb8de6ed4128c17e084fcafe68f9717d600c1"
  Role := "ultra"
  Rate := "250M"
  Connections := 25
  Domain := "rapidapi.com"
  StandardClaims := ⟨"", 1700604800, "", 0, "", 0, ""⟩

/-- The value of a decimal digit string (used to invert `strconv.Itoa`). -/
def decimalValue (l : List Char) : Nat := l.foldl (fun acc c => 10 * acc + (c.toNat - 48)) 0

/-! ## Lemmas on the library functions -/

theorem canonical_proxy_secret :
    canonicalMIMEHeaderKey "X-RapidAPI-Proxy-Secret" = "X-Rapidapi-Proxy-Secret" := by decide

theorem canonical_subscription :
    canonicalMIMEHeaderKey "X-RapidAPI-Subscription" = "X-Rapidapi-Subscription" := by decide

theorem canonical_user : canonicalMIMEHeaderKey "X-RapidAPI-User" = "X-Rapidapi-User" := by decide

theorem canonical_token : canonicalMIMEHeaderKey "X-Token" = "X-Token" := by decide

theorem canonical_api_key : canonicalMIMEHeaderKey "X-Api-Key" = "X-Api-Key" := by decide

/-- A header that is absent reads as the empty string. -/
theorem Header.Get_of_absent (h : Header) (key : String)
    (habs : h (canonicalMIMEHeaderKey key) = none) : h.Get key = "" := by
  simp [Header.Get, habs]

theorem Header.Set_same (h : Header) (key value : String) :
    h.Set key value (canonicalMIMEHeaderKey key) = some [value] := by
  simp [Header.Set]

theorem Header.Set_other (h : Header) (key value k : String)
    (hk : k ≠ canonicalMIMEHeaderKey key) : h.Set key value k = h k := by
  simp [Header.Set, hk]

/-! ### Strings -/

theorem append_right_cancel (a b c : String) (h : a ++ c = b ++ c) : a = b := by
  have h1 := congrArg String.data h
  simp only [String.data_append] at h1
  exact String.ext (List.append_cancel_right h1)

theorem append_left_cancel (a b c : String) (h : a ++ b = a ++ c) : b = c := by
  have h1 := congrArg String.data h
  simp only [String.data_append] at h1
  exact String.ext (List.append_cancel_left h1)

/-! ### Decimal digits -/

theorem toDigitsCore_append (fuel : Nat) :
    ∀ (n : Nat) (ds : List Char),
      Nat.toDigitsCore 10 fuel n ds = Nat.toDigitsCore 10 fuel n [] ++ ds := by
  induction fuel with
  | zero => intro n ds; simp [Nat.toDigitsCore]
  | succ fuel ih =>
    intro n ds
    simp only [Nat.toDigitsCore]
    by_cases h : n / 10 = 0
    · simp [h]
    · simp only [h, if_false]
      rw [ih (n / 10) (Nat.digitChar (n % 10) :: ds), ih (n / 10) [Nat.digitChar (n % 10)]]
      simp

theorem decimalValue_append_singleton (l : List Char) (c : Char) :
    decimalValue (l ++ [c]) = 10 * decimalValue l + (c.toNat - 48) := by
  simp [decimalValue, List.foldl_append]

theorem digitChar_value (d : Nat) (h : d < 10) : (Nat.digitChar d).toNat - 48 = d := by
  interval_cases d <;> rfl

theorem digitChar_ne_minus (d : Nat) (h : d < 10) : Nat.digitChar d ≠ '-' := by
  interval_cases d <;> decide

theorem decimalValue_toDigitsCore (fuel : Nat) :
    ∀ n : Nat, n < fuel → decimalValue (Nat.toDigitsCore 10 fuel n []) = n := by
  induction fuel with
  | zero => intro n h; omega
  | succ fuel ih =>
    intro n hn
    simp only [Nat.toDigitsCore]
    by_cases h : n / 10 = 0
    · have : n < 10 := by omega
      simp only [h, if_true]
      have hv := digitChar_value (n % 10) (Nat.mod_lt _ (by decide))
      simp only [decimalValue, List.foldl]
      omega
    · simp only [h, if_false]
      rw [toDigitsCore_append, decimalValue_append_singleton, ih (n / 10) (by omega),
        digitChar_value (n % 10) (Nat.mod_lt _ (by decide))]
      omega

theorem decimalValue_toDigits (n : Nat) : decimalValue (Nat.toDigits 10 n) = n := by
  simp only [Nat.toDigits]
  exact decimalValue_toDigitsCore (n + 1) n (by omega)

theorem toDigits_injective (a b : Nat) (h : Nat.toDigits 10 a = Nat.toDigits 10 b) : a = b := by
  have := congrArg decimalValue h
  simpa [decimalValue_toDigits] using this

theorem toDigitsCore_mem (fuel : Nat) :
    ∀ (n : Nat) (ds : List Char) (c : Char), c ∈ Nat.toDigitsCore 10 fuel n ds →
      c ∈ ds ∨ ∃ d, d < 10 ∧ c = Nat.digitChar d := by
  induction fuel with
  | zero => intro n ds c h; left; simpa [Nat.toDigitsCore] using h
  | succ fuel ih =>
    intro n ds c hc
    simp only [Nat.toDigitsCore] at hc
    by_cases h : n / 10 = 0
    · simp only [h, if_true, List.mem_cons] at hc
      rcases hc with hc | hc
      · right; exact ⟨n % 10, Nat.mod_lt _ (by decide), hc⟩
      · left; exact hc
    · simp only [h, if_false] at hc
      rcases ih _ _ _ hc with h1 | h1
      · rcases List.mem_cons.mp h1 with h2 | h2
        · right; exact ⟨n % 10, Nat.mod_lt _ (by decide), h2⟩
        · left; exact h2
      · right; exact h1

theorem minus_not_mem_toDigits (n : Nat) : '-' ∉ Nat.toDigits 10 n := by
  intro h
  rcases toDigitsCore_mem _ _ _ _ h with h1 | ⟨d, hd, h1⟩
  · simp at h1
  · exact digitChar_ne_minus d hd h1.symm

/-- `strconv.Itoa` is injective. -/
theorem itoa_injective (a b : Int) (h : itoa a = itoa b) : a = b := by
  unfold itoa at h
  by_cases ha : a < 0 <;> by_cases hb : b < 0 <;> simp only [ha, hb, if_true, if_false] at h
  · have h1 : Nat.toDigits 10 a.natAbs = Nat.toDigits 10 b.natAbs := by
      injection h with h; injection h
    have := toDigits_injective _ _ h1
    omega
  · exfalso
    have h1 : '-' :: Nat.toDigits 10 a.natAbs = Nat.toDigits 10 b.natAbs := by injection h
    exact minus_not_mem_toDigits b.natAbs (h1 ▸ List.mem_cons_self _ _)
  · exfalso
    have h1 : Nat.toDigits 10 a.natAbs = '-' :: Nat.toDigits 10 b.natAbs := by injection h
    exact minus_not_mem_toDigits a.natAbs (h1 ▸ List.mem_cons_self _ _)
  · have h1 : Nat.toDigits 10 a.natAbs = Nat.toDigits 10 b.natAbs := by injection h
    have := toDigits_injective _ _ h1
    omega

/-! ### Hexadecimal formatting and SHA-1 -/

theorem digitChar_inj16 (a b : Nat) (ha : a < 16) (hb : b < 16)
    (h : Nat.digitChar a = Nat.digitChar b) : a = b := by
  interval_cases a <;> interval_cases b <;> first | rfl | (exfalso; revert h; decide)

theorem sprintfHex_data_cons (x : Nat) (xs : List Nat) :
    (sprintfHex (x :: xs)).data =
      Nat.digitChar (x / 16) :: Nat.digitChar (x % 16) :: (sprintfHex xs).data := by
  simp [sprintfHex]

theorem sprintfHex_injective :
    ∀ (xs ys : List Nat), (∀ x ∈ xs, x < 256) → (∀ y ∈ ys, y < 256) →
      sprintfHex xs = sprintfHex ys → xs = ys := by
  intro xs
  induction xs with
  | nil =>
    intro ys _ _ h
    cases ys with
    | nil => rfl
    | cons y ys =>
      have h1 := congrArg String.data h
      rw [sprintfHex_data_cons] at h1
      simp [sprintfHex] at h1
  | cons x xs ih =>
    intro ys hx hy h
    cases ys with
    | nil =>
      have h1 := congrArg String.data h
      rw [sprintfHex_data_cons] at h1
      simp [sprintfHex] at h1
    | cons y ys =>
      have h1 := congrArg String.data h
      rw [sprintfHex_data_cons, sprintfHex_data_cons] at h1
      have h2 : Nat.digitChar (x / 16) = Nat.digitChar (y / 16) := (List.cons.inj h1).1
      have h3 : Nat.digitChar (x % 16) = Nat.digitChar (y % 16) :=
        (List.cons.inj (List.cons.inj h1).2).1
      have h4 : (sprintfHex xs).data = (sprintfHex ys).data :=
        (List.cons.inj (List.cons.inj h1).2).2
      have hx1 : x < 256 := hx x (List.mem_cons_self _ _)
      have hy1 : y < 256 := hy y (List.mem_cons_self _ _)
      have e1 := digitChar_inj16 _ _ (by omega) (by omega) h2
      have e2 := digitChar_inj16 _ _ (Nat.mod_lt _ (by decide)) (Nat.mod_lt _ (by decide)) h3
      have e3 : x = y := by omega
      have e4 : xs = ys := ih ys (fun a ha => hx a (List.mem_cons_of_mem _ ha))
        (fun a ha => hy a (List.mem_cons_of_mem _ ha)) (String.ext h4)
      rw [e3, e4]

theorem sha1.Sum_lt (msg : List Nat) : ∀ b ∈ sha1.Sum msg, b < 256 := by
  intro b hb
  simp only [sha1.Sum, sha1.bytes32, List.cons_append, List.nil_append, List.mem_cons,
    List.mem_singleton, List.not_mem_nil, or_false] at hb
  rcases hb with h | h | h | h | h | h | h | h | h | h | h | h | h | h | h | h | h | h | h | h <;>
    (rw [h]; exact Nat.mod_lt _ (by decide))

set_option maxRecDepth 1000000 in
/-- The digest of the string abc (FIPS 180 test vector). -/
theorem sha1.Sum_abc :
    sprintfHex (sha1.Sum (bytesOf "abc")) = "a9993e364706816aba3e25717850c26c9cd0d89d" := by
  decide

set_option maxRecDepth 1000000 in
/-- A two-block message (FIPS 180 test vector). -/
theorem sha1.Sum_two_blocks :
    sprintfHex (sha1.Sum (bytesOf "abcdbcdecdefdefgefghfghighijhijkijkljklmklmnlmnomnopnopq")) =
      "84983e441c3bd26ebaae4aa1f95129e5e54670f1" := by
  decide

/-! ## The handler, branch by branch -/

theorem handler_forbidden (L : Lib) (s : Web) (order : List SubscriptionType) (now : Time)
    (r : Request) (h : r.Header.Get "X-RapidAPI-Proxy-Secret" ≠ s.rapidSecret) :
    proxyRequestHandler L s order now r =
      { status := some 403, claims := none, proxied := none, request := r } := by
  simp [proxyRequestHandler, h]

theorem handler_error (L : Lib) (s : Web) (order : List SubscriptionType) (now : Time)
    (r : Request) (e : String) (h : r.Header.Get "X-RapidAPI-Proxy-Secret" = s.rapidSecret)
    (he : L.signedString (claimsOf L s order now r) s.wSecret = .error e) :
    proxyRequestHandler L s order now r =
      { status := some 500, claims := some (claimsOf L s order now r), proxied := none,
        request := r } := by
  simp [proxyRequestHandler, h, he]

theorem handler_ok (L : Lib) (s : Web) (order : List SubscriptionType) (now : Time)
    (r : Request) (tok : String) (h : r.Header.Get "X-RapidAPI-Proxy-Secret" = s.rapidSecret)
    (he : L.signedString (claimsOf L s order now r) s.wSecret = .ok tok) :
    proxyRequestHandler L s order now r =
      { status := none, claims := some (claimsOf L s order now r),
        proxied := some { r with Header := (r.Header.Set "X-Token" tok).Set "X-Api-Key" s.wKey },
        request := { r with Header := (r.Header.Set "X-Token" tok).Set "X-Api-Key" s.wKey } } := by
  simp [proxyRequestHandler, h, he]

/-- Past the secret check the handler always builds the claims `claimsOf`. -/
theorem handler_claims (L : Lib) (s : Web) (order : List SubscriptionType) (now : Time)
    (r : Request) (h : r.Header.Get "X-RapidAPI-Proxy-Secret" = s.rapidSecret) :
    (proxyRequestHandler L s order now r).claims = some (claimsOf L s order now r) := by
  cases he : L.signedString (claimsOf L s order now r) s.wSecret with
  | error e => rw [handler_error L s order now r e h he]
  | ok tok => rw [handler_ok L s order now r tok h he]

/-- The handler builds claims only for a request whose secret matched. -/
theorem handler_claims_some (L : Lib) (s : Web) (order : List SubscriptionType) (now : Time)
    (r : Request) (cl : StandardClaims)
    (h : (proxyRequestHandler L s order now r).claims = some cl) :
    r.Header.Get "X-RapidAPI-Proxy-Secret" = s.rapidSecret ∧ cl = claimsOf L s order now r := by
  by_cases hs : r.Header.Get "X-RapidAPI-Proxy-Secret" = s.rapidSecret
  · rw [handler_claims L s order now r hs] at h
    exact ⟨hs, (Option.some.inj h).symm⟩
  · rw [handler_forbidden L s order now r hs] at h
    simp at h

/-! ## The claims -/

/-- C1: when the value read from the `X-RapidAPI-Proxy-Secret` header differs from the
configured secret, the handler answers 403, does not call the proxy, builds no claims and
leaves the request (hence its `X-Token` and `X-Api-Key` headers) as it was. -/
theorem secret_mismatch_is_forbidden (L : Lib) (s : Web) (order : List SubscriptionType)
    (now : Time) (r : Request)
    (h : r.Header.Get "X-RapidAPI-Proxy-Secret" ≠ s.rapidSecret) :
    (proxyRequestHandler L s order now r).status = some 403 ∧
      (proxyRequestHandler L s order now r).proxied = none ∧
      (proxyRequestHandler L s order now r).claims = none ∧
      (proxyRequestHandler L s order now r).request = r := by
  rw [handler_forbidden L s order now r h]
  exact ⟨rfl, rfl, rfl, rfl⟩

theorem secret_mismatch_is_forbidden_witness :
    sampleRequest.Header.Get "X-RapidAPI-Proxy-Secret" ≠ "other" ∧
      (proxyRequestHandler sampleLib { NewWeb sampleContext with rapidSecret := "other" }
        [SubscriptionTypeBasic] 0 sampleRequest).status = some 403 :=
  ⟨by decide,
    (secret_mismatch_is_forbidden sampleLib { NewWeb sampleContext with rapidSecret := "other" }
      [SubscriptionTypeBasic] 0 sampleRequest (by decide)).1⟩

set_option maxRecDepth 100000 in
/-- C2 fails as written: under the default configuration the secret is the empty string,
and a request without the secret header reads as the empty string too, so the request is
not answered 403 but forwarded to the proxy. -/
theorem missing_secret_header_default_config_forwarded :
    (NewWeb defaultContext).rapidSecret = "" ∧
      bareRequest.Header (canonicalMIMEHeaderKey "X-RapidAPI-Proxy-Secret") = none ∧
      (proxyRequestHandler sampleLib (NewWeb defaultContext)
        [SubscriptionTypeBasic, SubscriptionTypePro, SubscriptionTypeUltra, SubscriptionTypeMega]
        0 bareRequest).status ≠ some 403 ∧
      (proxyRequestHandler sampleLib (NewWeb defaultContext)
        [SubscriptionTypeBasic, SubscriptionTypePro, SubscriptionTypeUltra, SubscriptionTypeMega]
        0 bareRequest).proxied.isSome = true := by
  decide

/-- C2, amended: for every configuration whose secret is not the empty string, a request
without the `X-RapidAPI-Proxy-Secret` header is answered 403 and never forwarded. -/
theorem missing_secret_header_is_forbidden (L : Lib) (s : Web) (order : List SubscriptionType)
    (now : Time) (r : Request) (hs : s.rapidSecret ≠ "")
    (habs : r.Header (canonicalMIMEHeaderKey "X-RapidAPI-Proxy-Secret") = none) :
    (proxyRequestHandler L s order now r).status = some 403 ∧
      (proxyRequestHandler L s order now r).proxied = none := by
  have h : r.Header.Get "X-RapidAPI-Proxy-Secret" ≠ s.rapidSecret := by
    rw [Header.Get_of_absent r.Header _ habs]
    exact fun e => hs e.symm
  rw [handler_forbidden L s order now r h]
  exact ⟨rfl, rfl⟩

theorem missing_secret_header_is_forbidden_witness :
    (NewWeb sampleContext).rapidSecret ≠ "" ∧
      bareRequest.Header (canonicalMIMEHeaderKey "X-RapidAPI-Proxy-Secret") = none ∧
      (proxyRequestHandler sampleLib (NewWeb sampleContext) [SubscriptionTypeBasic] 0
        bareRequest).status = some 403 :=
  ⟨by decide, by decide,
    (missing_secret_header_is_forbidden sampleLib (NewWeb sampleContext)
      [SubscriptionTypeBasic] 0 bareRequest (by decide) (by decide)).1⟩

theorem claimsOf_expiresAt (L : Lib) (s : Web) (order : List SubscriptionType) (now : Time)
    (r : Request) :
    (claimsOf L s order now r).StandardClaims.ExpiresAt = now.Unix + 604800 := by
  simp only [claimsOf, Time.Add, Time.Unix, Hour]
  have e : now + 24 * 7 * (3600 * 1000000000) = now + 604800 * 1000000000 := by norm_num
  rw [e]
  exact Int.add_mul_ediv_right now 604800 (by decide)

/-- C7: the expiry of the claims the handler builds at instant `now` is the whole number of
seconds elapsed since the epoch at `now` (rounded down) plus 604800; the tier, the caller and
the headers play no part. -/
theorem expiry_is_seven_days_after_now (L : Lib) (s : Web) (order : List SubscriptionType)
    (now : Time) (r : Request) (cl : StandardClaims)
    (h : (proxyRequestHandler L s order now r).claims = some cl) :
    cl.StandardClaims.ExpiresAt = now.Unix + 604800 ∧
      now.Unix * 1000000000 ≤ now ∧ now < (now.Unix + 1) * 1000000000 := by
  obtain ⟨_, rfl⟩ := handler_claims_some L s order now r cl h
  refine ⟨claimsOf_expiresAt L s order now r, ?_, ?_⟩
  · simp only [Time.Unix]
    exact Int.ediv_mul_le now (by decide)
  · simp only [Time.Unix]
    exact Int.lt_ediv_add_one_mul_self now (by decide)

set_option maxRecDepth 100000 in
theorem expiry_is_seven_days_after_now_witness :
    (proxyRequestHandler sampleLib (NewWeb sampleContext)
        [SubscriptionTypeMega, SubscriptionTypeUltra, SubscriptionTypePro, SubscriptionTypeBasic]
        1700000000123456789 sampleRequest).claims =
      some (claimsOf sampleLib (NewWeb sampleContext)
        [SubscriptionTypeMega, SubscriptionTypeUltra, SubscriptionTypePro, SubscriptionTypeBasic]
        1700000000123456789 sampleRequest) ∧
    (claimsOf sampleLib (NewWeb sampleContext)
        [SubscriptionTypeMega, SubscriptionTypeUltra, SubscriptionTypePro, SubscriptionTypeBasic]
        1700000000123456789 sampleRequest).StandardClaims.ExpiresAt = 1700604800 :=
  ⟨by decide,
    (expiry_is_seven_days_after_now sampleLib (NewWeb sampleContext)
      [SubscriptionTypeMega, SubscriptionTypeUltra, SubscriptionTypePro, SubscriptionTypeBasic]
      1700000000123456789 sampleRequest _ (by decide)).1.trans (by decide)⟩

/-- C8: when the secret matches and signing returns the token `tok`, the proxy is called
with the inbound request in which `X-Token` holds exactly `tok` (the signature of the claims
the handler built) and `X-Api-Key` holds exactly the configured key, whatever the caller had
put there; every other header, the method, the path, the query and the body are unchanged. -/
theorem forwarded_request_changes_two_headers (L : Lib) (s : Web)
    (order : List SubscriptionType) (now : Time) (r : Request) (tok : String)
    (h : r.Header.Get "X-RapidAPI-Proxy-Secret" = s.rapidSecret)
    (he : L.signedString (claimsOf L s order now r) s.wSecret = .ok tok) :
    (proxyRequestHandler L s order now r).status = none ∧
      (proxyRequestHandler L s order now r).claims = some (claimsOf L s order now r) ∧
      ∃ p, (proxyRequestHandler L s order now r).proxied = some p ∧
        p.Method = r.Method ∧ p.Path = r.Path ∧ p.RawQuery = r.RawQuery ∧ p.Body = r.Body ∧
        p.Header "X-Token" = some [tok] ∧ p.Header "X-Api-Key" = some [s.wKey] ∧
        p.Header.Get "X-Token" = tok ∧ p.Header.Get "X-Api-Key" = s.wKey ∧
        ∀ k, k ≠ "X-Token" → k ≠ "X-Api-Key" → p.Header k = r.Header k := by
  rw [handler_ok L s order now r tok h he]
  refine ⟨rfl, rfl, _, rfl, rfl, rfl, rfl, rfl, ?_, ?_, ?_, ?_, ?_⟩
  · simp [Header.Set, canonical_token, canonical_api_key]
  · simp [Header.Set, canonical_token, canonical_api_key]
  · simp [Header.Get, Header.Set, canonical_token, canonical_api_key]
  · simp [Header.Get, Header.Set, canonical_token, canonical_api_key]
  · intro k h1 h2
    simp [Header.Set, canonical_token, canonical_api_key, h1, h2]

set_option maxRecDepth 100000 in
theorem forwarded_request_changes_two_headers_witness :
    sampleRequest.Header.Get "X-RapidAPI-Proxy-Secret" = (NewWeb sampleContext).rapidSecret ∧
      sampleLib.signedString (claimsOf sampleLib (NewWeb sampleContext)
        [SubscriptionTypeMega, SubscriptionTypeUltra, SubscriptionTypePro, SubscriptionTypeBasic]
        1700000000123456789 sampleRequest) (NewWeb sampleContext).wSecret =
        .ok "ultra.79aeb8de6ed4128c17e084fcafe68f9717d600c1.sign-1" ∧
      (proxyRequestHandler sampleLib (NewWeb sampleContext)
        [SubscriptionTypeMega, SubscriptionTypeUltra, SubscriptionTypePro, SubscriptionTypeBasic]
        1700000000123456789 sampleRequest).status = none :=
  ⟨by decide, by simp only [sampleLib]; exact congrArg Except.ok (by decide),
    (forwarded_request_changes_two_headers sampleLib (NewWeb sampleContext)
      [SubscriptionTypeMega, SubscriptionTypeUltra, SubscriptionTypePro, SubscriptionTypeBasic]
      1700000000123456789 sampleRequest "ultra.79aeb8de6ed4128c17e084fcafe68f9717d600c1.sign-1"
      (by decide) (by simp only [sampleLib]; exact congrArg Except.ok (by decide))).1⟩

/-- C9: when the secret matches and signing fails, the handler answers 500, does not call
the proxy and leaves the request (hence `X-Token` and `X-Api-Key`) as it was; and in general
the proxy is called exactly when the secret matches and signing succeeds. -/
theorem signing_failure_is_internal_error (L : Lib) (s : Web) (order : List SubscriptionType)
    (now : Time) (r : Request) (e : String)
    (h : r.Header.Get "X-RapidAPI-Proxy-Secret" = s.rapidSecret)
    (he : L.signedString (claimsOf L s order now r) s.wSecret = .error e) :
    ((proxyRequestHandler L s order now r).status = some 500 ∧
      (proxyRequestHandler L s order now r).proxied = none ∧
      (proxyRequestHandler L s order now r).request = r) ∧
    ∀ (L1 : Lib) (s1 : Web) (order1 : List SubscriptionType) (now1 : Time) (r1 : Request),
      (proxyRequestHandler L1 s1 order1 now1 r1).proxied.isSome = true ↔
        (r1.Header.Get "X-RapidAPI-Proxy-Secret" = s1.rapidSecret ∧
          ∃ tok, L1.signedString (claimsOf L1 s1 order1 now1 r1) s1.wSecret = .ok tok) := by
  refine ⟨?_, ?_⟩
  · rw [handler_error L s order now r e h he]
    exact ⟨rfl, rfl, rfl⟩
  · intro L1 s1 order1 now1 r1
    by_cases hs : r1.Header.Get "X-RapidAPI-Proxy-Secret" = s1.rapidSecret
    · cases hsig : L1.signedString (claimsOf L1 s1 order1 now1 r1) s1.wSecret with
      | error e1 =>
        rw [handler_error L1 s1 order1 now1 r1 e1 hs hsig]
        simp
      | ok tok =>
        rw [handler_ok L1 s1 order1 now1 r1 tok hs hsig]
        simp [hs]
    · rw [handler_forbidden L1 s1 order1 now1 r1 hs]
      simp [hs]

set_option maxRecDepth 100000 in
theorem signing_failure_is_internal_error_witness :
    sampleRequest.Header.Get "X-RapidAPI-Proxy-Secret" = (NewWeb sampleContext).rapidSecret ∧
      (proxyRequestHandler failingLib (NewWeb sampleContext)
        [SubscriptionTypeMega, SubscriptionTypeUltra, SubscriptionTypePro, SubscriptionTypeBasic]
        1700000000123456789 sampleRequest).status = some 500 :=
  ⟨by decide,
    (signing_failure_is_internal_error failingLib (NewWeb sampleContext)
      [SubscriptionTypeMega, SubscriptionTypeUltra, SubscriptionTypePro, SubscriptionTypeBasic]
      1700000000123456789 sampleRequest "key is invalid" (by decide) rfl).1.1⟩

set_option maxRecDepth 100000 in
/-- C10: the hashed string is the plain concatenation, so different triples can give the
same string and then the same session identifier: caller `u`, rate `1`, 23 connections and
caller `u`, rate `12`, 3 connections; caller `a2`, rate `0M`, 2 connections and caller `a`,
rate `20M`, 2 connections. -/
theorem session_input_not_injective :
    (("u", "1", (23 : Int)) ≠ ("u", "12", (3 : Int)) ∧
        sessionInput "u" "1" 23 = sessionInput "u" "12" 3 ∧
        sessionID "u" "1" 23 = sessionID "u" "12" 3) ∧
      (("a2", "0M", (2 : Int)) ≠ ("a", "20M", (2 : Int)) ∧
        sessionInput "a2" "0M" 2 = sessionInput "a" "20M" 2 ∧
        sessionID "a2" "0M" 2 = sessionID "a" "20M" 2) ∧
      sessionInput "u" "1" 23 = "u123" ∧ sessionInput "a2" "0M" 2 = "a20M2" := by
  have e1 : sessionInput "u" "1" 23 = sessionInput "u" "12" 3 := by decide
  have e2 : sessionInput "a2" "0M" 2 = sessionInput "a" "20M" 2 := by decide
  refine ⟨⟨by decide, e1, ?_⟩, ⟨by decide, e2, ?_⟩, by decide, by decide⟩
  · simp only [sessionID, e1]
  · simp only [sessionID, e2]

/-! ### The tier table -/

theorem NewWeb_keys (c : Context) :
    (NewWeb c).rates.map Prod.fst =
      [SubscriptionTypeBasic, SubscriptionTypePro, SubscriptionTypeUltra, SubscriptionTypeMega] :=
  rfl

theorem NewWeb_ratesAt_basic (c : Context) :
    (NewWeb c).ratesAt SubscriptionTypeBasic = ⟨c.String basicRateFlag, c.Int basicConFlag⟩ :=
  rfl

theorem NewWeb_ratesAt_pro (c : Context) :
    (NewWeb c).ratesAt SubscriptionTypePro = ⟨c.String proRateFlag, c.Int proConFlag⟩ :=
  rfl

theorem NewWeb_ratesAt_ultra (c : Context) :
    (NewWeb c).ratesAt SubscriptionTypeUltra = ⟨c.String ultraRateFlag, c.Int ultraConFlag⟩ :=
  rfl

theorem NewWeb_ratesAt_mega (c : Context) :
    (NewWeb c).ratesAt SubscriptionTypeMega = ⟨c.String megaRateFlag, c.Int megaConFlag⟩ :=
  rfl

/-- The rate and the connection limit that `NewWeb` configures for a tier identifier. -/
theorem NewWeb_ratesAt_mem (c : Context) (k : SubscriptionType)
    (hk : k ∈ (NewWeb c).rates.map Prod.fst) :
    (k, (NewWeb c).ratesAt k) ∈ (NewWeb c).rates := by
  rw [NewWeb_keys] at hk
  simp only [List.mem_cons, List.mem_singleton, List.not_mem_nil, or_false] at hk
  rcases hk with rfl | rfl | rfl | rfl
  · rw [NewWeb_ratesAt_basic]; simp [NewWeb]
  · rw [NewWeb_ratesAt_pro]; simp [NewWeb]
  · rw [NewWeb_ratesAt_ultra]; simp [NewWeb]
  · rw [NewWeb_ratesAt_mega]; simp [NewWeb]

theorem hasPrefix_head (s k : String) (c : Char) (rest : List Char)
    (hk : k.data = c :: rest) (h : hasPrefix s k = true) : s.data.head? = some c := by
  unfold hasPrefix at h
  rw [hk] at h
  cases hs : s.data with
  | nil => rw [hs] at h; simp [List.isPrefixOf] at h
  | cons a l =>
    rw [hs] at h
    simp only [List.isPrefixOf, Bool.and_eq_true, beq_iff_eq] at h
    simp [h.1]

/-- A string starts with at most one of the four tier identifiers. -/
theorem tier_prefix_unique (s : String) (k k2 : SubscriptionType)
    (hk : k ∈ [SubscriptionTypeBasic, SubscriptionTypePro, SubscriptionTypeUltra,
      SubscriptionTypeMega])
    (hk2 : k2 ∈ [SubscriptionTypeBasic, SubscriptionTypePro, SubscriptionTypeUltra,
      SubscriptionTypeMega])
    (h : hasPrefix s k = true) (h2 : hasPrefix s k2 = true) : k = k2 := by
  have hb := hasPrefix_head s SubscriptionTypeBasic 'b' _ rfl
  have hp := hasPrefix_head s SubscriptionTypePro 'p' _ rfl
  have hu := hasPrefix_head s SubscriptionTypeUltra 'u' _ rfl
  have hm := hasPrefix_head s SubscriptionTypeMega 'm' _ rfl
  simp only [List.mem_cons, List.mem_singleton, List.not_mem_nil, or_false] at hk hk2
  rcases hk with rfl | rfl | rfl | rfl <;> rcases hk2 with rfl | rfl | rfl | rfl <;>
    first
    | rfl
    | (exfalso
       first
       | (have a := hb h; have b := hp h2; rw [a] at b; revert b; decide)
       | (have a := hb h; have b := hu h2; rw [a] at b; revert b; decide)
       | (have a := hb h; have b := hm h2; rw [a] at b; revert b; decide)
       | (have a := hp h; have b := hb h2; rw [a] at b; revert b; decide)
       | (have a := hp h; have b := hu h2; rw [a] at b; revert b; decide)
       | (have a := hp h; have b := hm h2; rw [a] at b; revert b; decide)
       | (have a := hu h; have b := hb h2; rw [a] at b; revert b; decide)
       | (have a := hu h; have b := hp h2; rw [a] at b; revert b; decide)
       | (have a := hu h; have b := hm h2; rw [a] at b; revert b; decide)
       | (have a := hm h; have b := hb h2; rw [a] at b; revert b; decide)
       | (have a := hm h; have b := hp h2; rw [a] at b; revert b; decide)
       | (have a := hm h; have b := hu h2; rw [a] at b; revert b; decide))

/-- Whatever the iteration order, the loop stops at the one identifier that prefixes. -/
theorem subTypeOf_of_prefix (L : Lib) (c : Context) (order : List SubscriptionType)
    (r : Request) (k : SubscriptionType) (ho : (NewWeb c).IsOrder order)
    (hk : k ∈ [SubscriptionTypeBasic, SubscriptionTypePro, SubscriptionTypeUltra,
      SubscriptionTypeMega])
    (hp : hasPrefix (toLower L.unicodeLower (r.Header.Get "X-RapidAPI-Subscription")) k = true) :
    subTypeOf L order r = k := by
  unfold Web.IsOrder at ho
  rw [NewWeb_keys] at ho
  have hmem : k ∈ order := ho.mem_iff.mpr hk
  unfold subTypeOf
  cases hf : order.find?
      (fun k => hasPrefix (toLower L.unicodeLower (r.Header.Get "X-RapidAPI-Subscription")) k) with
  | none =>
    rw [List.find?_eq_none] at hf
    exact absurd hp (hf k hmem)
  | some k2 =>
    have h1 := List.find?_some hf
    have h2 : k2 ∈ order := List.mem_of_find?_eq_some hf
    show (order.find? (fun k =>
      hasPrefix (toLower L.unicodeLower (r.Header.Get "X-RapidAPI-Subscription")) k)).getD
        SubscriptionTypeBasic = k
    rw [hf]
    exact tier_prefix_unique _ k2 k (ho.mem_iff.mp h2) hk h1 hp

/-- When no identifier in the order prefixes the header, the loop leaves the default. -/
theorem subTypeOf_of_no_prefix (L : Lib) (order : List SubscriptionType) (r : Request)
    (hp : ∀ k ∈ order,
      hasPrefix (toLower L.unicodeLower (r.Header.Get "X-RapidAPI-Subscription")) k = false) :
    subTypeOf L order r = SubscriptionTypeBasic := by
  unfold subTypeOf
  have hf : order.find?
      (fun k => hasPrefix (toLower L.unicodeLower (r.Header.Get "X-RapidAPI-Subscription")) k)
      = none := by
    rw [List.find?_eq_none]
    intro k hk
    simp [hp k hk]
  show (order.find? (fun k =>
    hasPrefix (toLower L.unicodeLower (r.Header.Get "X-RapidAPI-Subscription")) k)).getD
      SubscriptionTypeBasic = SubscriptionTypeBasic
  rw [hf]
  rfl

theorem hasPrefix_empty (k : String) (hk : k ≠ "") : hasPrefix "" k = false := by
  unfold hasPrefix
  cases hd : k.data with
  | nil => exact absurd (String.ext hd) hk
  | cons a l => rfl

theorem toLower_empty (tbl : Char → Char) : toLower tbl "" = "" := rfl

/-- C3: with the table built by `NewWeb`, in whatever order the loop visits its four keys,
a request with the correct secret whose lowered `X-RapidAPI-Subscription` value starts with
the tier identifier `k` gets claims whose role is `k` and whose rate and connection limit
are the ones the table holds for `k`; the claims are the same for every iteration order, and
no one of the four identifiers is a prefix of another. -/
theorem matched_tier_sets_role_rate_connections (L : Lib) (c : Context)
    (order : List SubscriptionType) (now : Time) (r : Request) (k : SubscriptionType)
    (ho : (NewWeb c).IsOrder order)
    (hs : r.Header.Get "X-RapidAPI-Proxy-Secret" = (NewWeb c).rapidSecret)
    (hk : k ∈ [SubscriptionTypeBasic, SubscriptionTypePro, SubscriptionTypeUltra,
      SubscriptionTypeMega])
    (hp : hasPrefix (toLower L.unicodeLower (r.Header.Get "X-RapidAPI-Subscription")) k = true) :
    (∃ cl, (proxyRequestHandler L (NewWeb c) order now r).claims = some cl ∧
        cl.Role = k ∧ (k, (⟨cl.Rate, cl.Connections⟩ : Features)) ∈ (NewWeb c).rates) ∧
      (NewWeb c).rates =
        [("basic", ⟨c.String "basic-rate", c.Int "basic-connections"⟩),
         ("pro", ⟨c.String "pro-rate", c.Int "pro-connections"⟩),
         ("ultra", ⟨c.String "ultra-rate", c.Int "ultra-connections"⟩),
         ("mega", ⟨c.String "mega-rate", c.Int "mega-connections"⟩)] ∧
      (∀ order2, (NewWeb c).IsOrder order2 →
        (proxyRequestHandler L (NewWeb c) order2 now r).claims =
          (proxyRequestHandler L (NewWeb c) order now r).claims) ∧
      (∀ a ∈ ["basic", "pro", "ultra", "mega"], ∀ b ∈ ["basic", "pro", "ultra", "mega"],
        hasPrefix a b = true → a = b) := by
  have e1 := subTypeOf_of_prefix L c order r k ho hk hp
  refine ⟨⟨claimsOf L (NewWeb c) order now r, handler_claims L (NewWeb c) order now r hs, ?_, ?_⟩,
    rfl, ?_, by decide⟩
  · simp only [claimsOf, e1]
  · simp only [claimsOf, e1]
    exact NewWeb_ratesAt_mem c k (by rw [NewWeb_keys]; exact hk)
  · intro order2 ho2
    have e2 := subTypeOf_of_prefix L c order2 r k ho2 hk hp
    rw [handler_claims L (NewWeb c) order2 now r hs, handler_claims L (NewWeb c) order now r hs]
    simp only [claimsOf, e1, e2]

set_option maxRecDepth 100000 in
theorem matched_tier_sets_role_rate_connections_witness :
    (NewWeb sampleContext).IsOrder
        [SubscriptionTypeMega, SubscriptionTypeUltra, SubscriptionTypePro, SubscriptionTypeBasic] ∧
      (tierRequest (some "ULTRA_Monthly")).Header.Get "X-RapidAPI-Proxy-Secret" =
        (NewWeb sampleContext).rapidSecret ∧
      hasPrefix (toLower sampleLib.unicodeLower
        ((tierRequest (some "ULTRA_Monthly")).Header.Get "X-RapidAPI-Subscription")) "ultra"
          = true ∧
      (NewWeb sampleContext).ratesAt "ultra" = ⟨"250M", 25⟩ ∧
      ∃ cl, (proxyRequestHandler sampleLib (NewWeb sampleContext)
          [SubscriptionTypeMega, SubscriptionTypeUltra, SubscriptionTypePro,
            SubscriptionTypeBasic] 0 (tierRequest (some "ULTRA_Monthly"))).claims = some cl ∧
        cl.Role = "ultra" ∧
        (("ultra", (⟨cl.Rate, cl.Connections⟩ : Features)) ∈ (NewWeb sampleContext).rates) :=
  ⟨by decide, by decide, by decide, by decide,
    (matched_tier_sets_role_rate_connections sampleLib sampleContext
      [SubscriptionTypeMega, SubscriptionTypeUltra, SubscriptionTypePro, SubscriptionTypeBasic]
      0 (tierRequest (some "ULTRA_Monthly")) "ultra" (by decide) (by decide) (by decide)
      (by decide)).1⟩

/-- C4: with the table built by `NewWeb`, a request with the correct secret whose
`X-RapidAPI-Subscription` header is absent, or whose lowered value starts with none of the
four tier identifiers, gets claims with role `basic` and the rate and connection limit
configured for basic; these are `20M` and 2 when the flags are left at their defaults. -/
theorem unmatched_tier_defaults_to_basic (L : Lib) (c : Context)
    (order : List SubscriptionType) (now : Time) (r : Request)
    (ho : (NewWeb c).IsOrder order)
    (hs : r.Header.Get "X-RapidAPI-Proxy-Secret" = (NewWeb c).rapidSecret)
    (hp : r.Header (canonicalMIMEHeaderKey "X-RapidAPI-Subscription") = none ∨
      ∀ k ∈ (NewWeb c).rates.map Prod.fst,
        hasPrefix (toLower L.unicodeLower (r.Header.Get "X-RapidAPI-Subscription")) k = false) :
    (∃ cl, (proxyRequestHandler L (NewWeb c) order now r).claims = some cl ∧
        cl.Role = "basic" ∧ cl.Rate = c.String "basic-rate" ∧
        cl.Connections = c.Int "basic-connections") ∧
      defaultContext.String "basic-rate" = "20M" ∧
      defaultContext.Int "basic-connections" = 2 := by
  have hno : ∀ k ∈ order,
      hasPrefix (toLower L.unicodeLower (r.Header.Get "X-RapidAPI-Subscription")) k = false := by
    intro k hk
    have hk1 : k ∈ (NewWeb c).rates.map Prod.fst := ho.mem_iff.mp hk
    rcases hp with habs | hall
    · rw [Header.Get_of_absent r.Header _ habs, toLower_empty]
      apply hasPrefix_empty
      rw [NewWeb_keys] at hk1
      simp only [List.mem_cons, List.mem_singleton, List.not_mem_nil, or_false] at hk1
      rcases hk1 with rfl | rfl | rfl | rfl <;> decide
    · exact hall k hk1
  have e1 := subTypeOf_of_no_prefix L order r hno
  refine ⟨⟨claimsOf L (NewWeb c) order now r, handler_claims L (NewWeb c) order now r hs,
    ?_, ?_, ?_⟩, by decide, by decide⟩
  · simp only [claimsOf, e1]; rfl
  · simp only [claimsOf, e1, NewWeb_ratesAt_basic]; rfl
  · simp only [claimsOf, e1, NewWeb_ratesAt_basic]; rfl

set_option maxRecDepth 100000 in
theorem unmatched_tier_defaults_to_basic_witness :
    (NewWeb sampleContext).IsOrder
        [SubscriptionTypeMega, SubscriptionTypeUltra, SubscriptionTypePro, SubscriptionTypeBasic] ∧
      (tierRequest none).Header.Get "X-RapidAPI-Proxy-Secret" =
        (NewWeb sampleContext).rapidSecret ∧
      (tierRequest none).Header (canonicalMIMEHeaderKey "X-RapidAPI-Subscription") = none ∧
      sampleContext.String "basic-rate" = "20M" ∧ sampleContext.Int "basic-connections" = 2 ∧
      ∃ cl, (proxyRequestHandler sampleLib (NewWeb sampleContext)
          [SubscriptionTypeMega, SubscriptionTypeUltra, SubscriptionTypePro,
            SubscriptionTypeBasic] 0 (tierRequest none)).claims = some cl ∧
        cl.Role = "basic" ∧ cl.Rate = sampleContext.String "basic-rate" ∧
        cl.Connections = sampleContext.Int "basic-connections" :=
  ⟨by decide, by decide, by decide, by decide, by decide,
    (unmatched_tier_defaults_to_basic sampleLib sampleContext
      [SubscriptionTypeMega, SubscriptionTypeUltra, SubscriptionTypePro, SubscriptionTypeBasic]
      0 (tierRequest none) (by decide) (by decide) (Or.inl (by decide))).1⟩

/-! ### The session identifier -/

theorem sha1.Sum_length (msg : List Nat) : (sha1.Sum msg).length = 20 := by
  simp [sha1.Sum, sha1.bytes32]

theorem sprintfHex_length (bs : List Nat) : (sprintfHex bs).length = 2 * bs.length := by
  induction bs with
  | nil => rfl
  | cons b bs ih =>
    have e : (sprintfHex (b :: bs)).length = (sprintfHex bs).length + 2 := by
      simp only [String.length, sprintfHex_data_cons, List.length_cons]
    rw [e, ih, List.length_cons]
    omega

theorem digitChar_lower_hex (d : Nat) (h : d < 16) :
    Nat.digitChar d ∈ "0123456789abcdef".data := by
  interval_cases d <;> decide

theorem sprintfHex_lower_hex (bs : List Nat) :
    ∀ ch ∈ (sprintfHex bs).data, ch ∈ "0123456789abcdef".data ∨ ∃ b ∈ bs, 256 ≤ b := by
  induction bs with
  | nil => intro ch h; simp [sprintfHex] at h
  | cons b bs ih =>
    intro ch h
    rw [sprintfHex_data_cons] at h
    by_cases hb : b < 256
    · rcases List.mem_cons.mp h with h1 | h1
      · left; rw [h1]; exact digitChar_lower_hex _ (by omega)
      · rcases List.mem_cons.mp h1 with h2 | h2
        · left; rw [h2]; exact digitChar_lower_hex _ (Nat.mod_lt _ (by decide))
        · rcases ih ch h2 with h3 | ⟨x, hx, h3⟩
          · left; exact h3
          · right; exact ⟨x, List.mem_cons_of_mem _ hx, h3⟩
    · right; exact ⟨b, List.mem_cons_self _ _, by omega⟩

theorem sessionID_length (u r : String) (c : Int) : (sessionID u r c).length = 40 := by
  rw [sessionID, sprintfHex_length, sha1.Sum_length]

theorem sessionID_lower_hex (u r : String) (c : Int) :
    ∀ ch ∈ (sessionID u r c).data, ch ∈ "0123456789abcdef".data := by
  intro ch h
  rcases sprintfHex_lower_hex _ ch h with h1 | ⟨b, hb, h1⟩
  · exact h1
  · exact absurd (sha1.Sum_lt _ b hb) (by omega)

theorem claimsOf_sessionID (L : Lib) (s : Web) (order : List SubscriptionType) (now : Time)
    (r : Request) :
    (claimsOf L s order now r).SessionID =
      sessionID (r.Header.Get "X-RapidAPI-User") (claimsOf L s order now r).Rate
        (claimsOf L s order now r).Connections := rfl

/-- C5: the session identifier in the claims is the lower-case hexadecimal SHA-1 digest (40
characters) of the caller header value followed by the rate and the decimal connection
limit of the claims; two runs of the handler, whatever their clock, configuration, iteration
order and other headers, that agree on the caller header, the rate and the connection limit
give the same identifier; and a request without the caller header gets the digest of the
rate followed by the decimal connection limit. -/
theorem session_id_is_sha1_of_caller_rate_connections (L : Lib) (s : Web)
    (order : List SubscriptionType) (now : Time) (r : Request) (cl : StandardClaims)
    (h : (proxyRequestHandler L s order now r).claims = some cl) :
    cl.SessionID = sprintfHex (sha1.Sum (bytesOf
        (r.Header.Get "X-RapidAPI-User" ++ cl.Rate ++ itoa cl.Connections))) ∧
      cl.SessionID.length = 40 ∧
      (∀ ch ∈ cl.SessionID.data, ch ∈ "0123456789abcdef".data) ∧
      (∀ (L2 : Lib) (s2 : Web) (order2 : List SubscriptionType) (now2 : Time) (r2 : Request)
          (cl2 : StandardClaims),
        (proxyRequestHandler L2 s2 order2 now2 r2).claims = some cl2 →
        r2.Header.Get "X-RapidAPI-User" = r.Header.Get "X-RapidAPI-User" →
        cl2.Rate = cl.Rate → cl2.Connections = cl.Connections →
        cl2.SessionID = cl.SessionID) ∧
      (r.Header (canonicalMIMEHeaderKey "X-RapidAPI-User") = none →
        cl.SessionID = sprintfHex (sha1.Sum (bytesOf (cl.Rate ++ itoa cl.Connections)))) := by
  obtain ⟨_, rfl⟩ := handler_claims_some L s order now r cl h
  refine ⟨rfl, ?_, ?_, ?_, ?_⟩
  · rw [claimsOf_sessionID]; exact sessionID_length _ _ _
  · rw [claimsOf_sessionID]; exact sessionID_lower_hex _ _ _
  · intro L2 s2 order2 now2 r2 cl2 h2 hu hr hc
    obtain ⟨_, rfl⟩ := handler_claims_some L2 s2 order2 now2 r2 cl2 h2
    rw [claimsOf_sessionID, claimsOf_sessionID, hu, hr, hc]
  · intro habs
    rw [claimsOf_sessionID, Header.Get_of_absent r.Header _ habs]
    simp only [sessionID, sessionInput]
    rw [String.empty_append]

set_option maxRecDepth 100000 in
theorem session_id_is_sha1_of_caller_rate_connections_witness :
    (proxyRequestHandler sampleLib (NewWeb sampleContext)
        [SubscriptionTypeMega, SubscriptionTypeUltra, SubscriptionTypePro, SubscriptionTypeBasic]
        1700000000123456789 sampleRequest).claims =
      some sampleClaims ∧
      sampleClaims.SessionID =
        sprintfHex (sha1.Sum (bytesOf ("userA" ++ "250M" ++ itoa 25))) :=
  ⟨by decide,
    (session_id_is_sha1_of_caller_rate_connections sampleLib (NewWeb sampleContext)
      [SubscriptionTypeMega, SubscriptionTypeUltra, SubscriptionTypePro, SubscriptionTypeBasic]
      1700000000123456789 sampleRequest
      sampleClaims
      (by decide)).1.trans (by decide)⟩

/-- C6: the string that is hashed changes when exactly one of caller, rate and connection
limit changes: (i) a different caller, (ii) a different rate, (iii) a different connection
limit, each with the other two kept; and two session identifiers are equal exactly when the
SHA-1 digests of the two hashed strings are, so they differ whenever SHA-1 does not
collide on the two strings. -/
theorem single_field_change_changes_hashed_string (u u2 r r2 : String) (c c2 : Int) :
    (u ≠ u2 → sessionInput u r c ≠ sessionInput u2 r c) ∧
      (r ≠ r2 → sessionInput u r c ≠ sessionInput u r2 c) ∧
      (c ≠ c2 → sessionInput u r c ≠ sessionInput u r c2) ∧
      (sessionID u r c = sessionID u2 r2 c2 ↔
        sha1.Sum (bytesOf (sessionInput u r c)) = sha1.Sum (bytesOf (sessionInput u2 r2 c2))) ∧
      (sha1.Sum (bytesOf (sessionInput u r c)) ≠ sha1.Sum (bytesOf (sessionInput u2 r2 c2)) →
        sessionID u r c ≠ sessionID u2 r2 c2) := by
  have hiff : sessionID u r c = sessionID u2 r2 c2 ↔
      sha1.Sum (bytesOf (sessionInput u r c)) = sha1.Sum (bytesOf (sessionInput u2 r2 c2)) :=
    ⟨fun h => sprintfHex_injective _ _ (sha1.Sum_lt _) (sha1.Sum_lt _) h,
      fun h => by simp only [sessionID, h]⟩
  refine ⟨?_, ?_, ?_, hiff, fun hne h => hne (hiff.mp h)⟩
  · intro hu h
    simp only [sessionInput] at h
    exact hu (append_right_cancel _ _ _ (append_right_cancel _ _ _ h))
  · intro hr h
    simp only [sessionInput] at h
    exact hr (append_left_cancel _ _ _ (append_right_cancel _ _ _ h))
  · intro hc h
    simp only [sessionInput, String.append_assoc] at h
    exact hc (itoa_injective _ _ (append_left_cancel _ _ _ (append_left_cancel _ _ _ h)))

set_option maxRecDepth 1000000 in
theorem single_field_change_changes_hashed_string_witness :
    "userA" ≠ "userB" ∧ sessionInput "userA" "250M" 25 ≠ sessionInput "userB" "250M" 25 ∧
      sessionID "userA" "250M" 25 ≠ sessionID "userB" "250M" 25 :=
  ⟨by decide,
    (single_field_change_changes_hashed_string "userA" "userB" "250M" "250M" 25 25).1
      (by decide),
    (single_field_change_changes_hashed_string "userA" "userB" "250M" "250M" 25 25).2.2.2.2
      (by decide)⟩

end RapidapiGateway
